import Mathlib

/-!
Verification of the agent sandboxing and execution subsystem of the
game-ai-platform repository (directory `submissions/`), as a shallow
embedding in Lean 4.

The embedded code:
  * `submissions/agent_builder.py` — zip extraction with a path-escape
    check (`_safe_extract_zip`), deterministic content hashing
    (`_content_hash`), entry-file resolution (`_find_agent_entry`) and
    image building (`build_from_zip`);
  * `submissions/agent_runner.py` — the runtime-argument allow-list
    (`_build_docker_run_kwargs`), the blocking run path (`run_agent`)
    and the detached match path (`start_agent_container`);
  * `submissions/agent_manager.py` — the CPU/memory statistics snapshot
    (`get_container_stats`).

Modelling conventions.  Bytes are `Nat` (values below 256); filesystem
paths are lists of path components (`List String`); the container
engine and the hash primitive are parameters supplied to the embedded
functions; fallible code returns `Except String`.  Each definition
carries a comment pointing at the lines of the source it embeds.
-/

/-! ### Path model

Posix-style absolute paths as component lists.  `renderAbs` turns a
component list into the string form that `str(Path(...))` produces.
`normalizeComps` is the lexical normalization that `Path.resolve()`
performs on a non-existing, symlink-free path: empty and single-dot
components vanish, a double-dot component removes the preceding
component (and is a no-op at the root).
-/

def slashChar : Char := '/'

def slashStr : String := "/"

def dotStr : String := "."

def dotdotStr : String := ".."

def emptyStr : String := ""

/-- Split a string on the slash character, the way the Python
`str.split` used by `pathlib` joining does: the empty string yields one
empty component, and separators at the ends yield empty components. -/
def splitCompsAux (cs : List Char) : List (List Char) :=
  match cs with
  | [] => [[]]
  | c :: rest =>
    let r := splitCompsAux rest
    if c = slashChar then [] :: r
    else
      match r with
      | h :: t => (c :: h) :: t
      | [] => [[c]]

def splitComps (s : String) : List String :=
  (splitCompsAux s.data).map (fun l => String.mk l)

/-- Lexical normalization performed by `Path.resolve()` on paths that do
not exist on disk: drop empty and `.` components, let `..` remove the
previous component. -/
def normalizeComps (comps : List String) : List String :=
  comps.foldl
    (fun acc c =>
      if c = emptyStr ∨ c = dotStr then acc
      else if c = dotdotStr then acc.dropLast
      else acc ++ [c])
    []

/-- The string rendering of an absolute path given by its components,
matching `str(pathlib.Path(...))`. -/
def renderAbs (comps : List String) : String :=
  match comps with
  | [] => slashStr
  | _ => comps.foldl (fun acc c => acc ++ slashStr ++ c) emptyStr

/-- Python `str.startswith`: the candidate string is a character-sequence
prefix of the other. -/
def pyStartsWith (s pre : String) : Bool :=
  pre.data.isPrefixOf s.data

/-- Python `str.endswith`. -/
def pyEndsWith (s suf : String) : Bool :=
  suf.data.isSuffixOf s.data

/-- `(dst / filename).resolve()` of `agent_builder.py` line 19: `pathlib`
joining (an absolute right operand discards the left one) followed by
the lexical normalization of `resolve`.  `dst` is the already resolved
destination directory, given by its components. -/
def resolvedPath (dst : List String) (filename : String) : List String :=
  if pyStartsWith filename slashStr then normalizeComps (splitComps filename)
  else normalizeComps (dst ++ splitComps filename)

/-! ### Zip archives and `_safe_extract_zip`

`agent_builder.py` lines 15-23.  An archive is its member list; a member
has a stored name, a directory flag, and content bytes.  The check the
source performs for member `m` is
`str((dst / m.filename).resolve()).startswith(str(dst))` — a plain
string-prefix test on the rendered paths — and the first failing member
aborts the whole call before `extractall` runs.  `extractall` itself is
the CPython `zipfile` one: when writing, it drops drive letters, leading
separators and any `.` or `..` component of the member name, so every
write lands at `dst ++ sanitizeName name`.
-/

structure ZipEntry where
  filename : String
  isDir : Bool
  content : List Nat
deriving DecidableEq, Repr

/-- The path-containment check of `_safe_extract_zip` (line 21 of
`agent_builder.py`): a string-prefix comparison of the rendered
resolved member path against the rendered destination. -/
def pathCheck (dst : List String) (filename : String) : Bool :=
  pyStartsWith (renderAbs (resolvedPath dst filename)) (renderAbs dst)

/-- The member-name sanitization CPython `ZipFile.extractall` applies
before writing: split on slashes and drop empty, dot and double-dot
components. -/
def sanitizeName (filename : String) : List String :=
  (splitComps filename).filter
    (fun c => ¬ (c = emptyStr ∨ c = dotStr ∨ c = dotdotStr))

def illegalPathMsg : String := "Illegal Path in ZIP: "

/-- `_safe_extract_zip` (lines 15-23): validate every member with
`pathCheck` — raising `BuildError` on the first failure, before anything
is written — then extract all members.  The `.ok` value is the list of
filesystem paths written by `extractall`; the `.error` value is the
`BuildError` message.  An `.error` result performs no writes at all. -/
def safe_extract_zip (entries : List ZipEntry) (dst : List String) :
    Except String (List (List String)) :=
  match entries.find? (fun e => ! pathCheck dst e.filename) with
  | some e => .error (illegalPathMsg ++ e.filename)
  | none => .ok (entries.map (fun e => dst ++ sanitizeName e.filename))

/-! ### Content hashing — `_content_hash` (lines 25-32)

The source feeds SHA-256 with, for every regular file below the root in
sorted order, the utf-8 bytes of its forward-slash relative path
followed by its content bytes (chunked reads do not change the stream).
The embedding builds that byte stream explicitly (`hashInput`) and
leaves the digest itself — a stdlib primitive — as a function parameter
of the build, encoding characters at codepoint granularity (exact on
ascii names, injective in general, and immaterial to the properties
proved, which only use the digest as an abstract deterministic map).
-/

def encodeStr (s : String) : List Nat :=
  s.data.map Char.toNat

/-- The byte stream `_content_hash` feeds to SHA-256: files sorted by
relative path, each contributing its encoded path then its bytes. -/
def hashInput (files : List (String × List Nat)) : List Nat :=
  (files.mergeSort (fun a b => a.1 ≤ b.1)).foldl
    (fun acc f => acc ++ encodeStr f.1 ++ f.2) []

/-! ### Entry-file resolution — `_find_agent_entry` (lines 34-59)

The source iterates the top-level entries of the build context
(`ctx.iterdir()`), keeps the regular files whose name is `agent.py` or
ends with `_agent.py`, and requires exactly one candidate.  The
embedding receives the relative slash-separated paths of all regular
files in the context; an entry of `iterdir()` that is a regular file is
exactly a path without a slash, and deeper files are never inspected.
-/

def agentPyName : String := "agent.py"

def agentSuffix : String := "_agent.py"

/-- Candidate test of line 44: a top-level regular file named `agent.py`
or ending in `_agent.py`. -/
def isAgentCandidate (relPath : String) : Bool :=
  ! relPath.data.contains slashChar &&
    (relPath == agentPyName || pyEndsWith relPath agentSuffix)

def noEntryMsg : String :=
  "No agent entry file found. Expected agent.py or a file ending with _agent.py."

def multiEntryMsgPre : String := "Multiple agent entry files found: "

def multiEntryMsgSuf : String := ". Provide exactly one file."

def commaSep : String := ", "

/-- `_find_agent_entry`: zero candidates and two or more candidates are
`BuildError`s (the latter listing every candidate name); exactly one
candidate resolves to its filename. -/
def find_agent_entry (files : List String) : Except String String :=
  match files.filter isAgentCandidate with
  | [] => .error noEntryMsg
  | [x] => .ok x
  | xs => .error (multiEntryMsgPre ++ String.intercalate commaSep xs ++ multiEntryMsgSuf)

/-! ### Image building — `build_from_zip` (lines 62-115)

The engine-facing and host-facing context of a build — the presence of
`Dockerfile.agent`, the contents of `base_requirements.txt` and of the
default dockerignore file (both absent when the host lacks them), the
resolved temporary build directory, and the SHA-256 hex digest — are
bundled as `BuildEnv`.  The call-varying inputs are the archive, the
owner id and the creation timestamp.  The result records what the
source returns and passes to the engine: the deterministic tag, the
label set and the entry-file build argument.
-/

structure BuildEnv where
  digest : List Nat → String
  dockerfileExists : Bool
  baseRequirements : Option (List Nat)
  defaultIgnore : Option (List Nat)
  ctxDir : List String

structure BuildOut where
  tag : String
  labels : List (String × String)
  entryFile : String
deriving DecidableEq, Repr

def dockerfileMissingMsg : String := "submissions/Dockerfile nicht gefunden."

def baseReqName : String := "base_requirements.txt"

def dockerignoreName : String := ".dockerignore"

def ownerIdKeySuf : String := ".owner_id"

def contentShaKeySuf : String := ".content_sha256"

def createdAtKeySuf : String := ".created_at"

def kindKeySuf : String := ".kind"

def kindAgent : String := "agent"

def tagSep : String := "-"

def latestSuf : String := ":latest"

/-- The build-context file listing after extraction: every regular-file
member written by `extractall`, as a relative slash-separated path with
its bytes.  Directory members create directories, not files. -/
def extractedCtxFiles (entries : List ZipEntry) : List (String × List Nat) :=
  (entries.filter (fun e => ! e.isDir)).map
    (fun e => (String.intercalate slashStr (sanitizeName e.filename), e.content))

/-- Lines 79-81: `shutil.copy` of the shared `base_requirements.txt`
into the context when the host has one (overwriting a user copy). -/
def injectBaseReqs (env : BuildEnv) (files : List (String × List Nat)) :
    List (String × List Nat) :=
  match env.baseRequirements with
  | none => files
  | some content => files.filter (fun f => f.1 ≠ baseReqName) ++ [(baseReqName, content)]

/-- Lines 84-87: write the default dockerignore when the user supplied
none and the host has a default. -/
def injectIgnore (env : BuildEnv) (files : List (String × List Nat)) :
    List (String × List Nat) :=
  if files.any (fun f => f.1 = dockerignoreName) then files
  else
    match env.defaultIgnore with
    | none => files
    | some content => files ++ [(dockerignoreName, content)]

/-- `build_from_zip`: check the build recipe exists, extract the archive
safely, resolve the entry file, inject the shared requirements and the
default ignore rules, hash the final context, and derive the
`<prefix>-<hash[:8]>:latest` tag and the label set.  The owner id and
the timestamp flow only into the labels. -/
def build_from_zip (env : BuildEnv) (zipEntries : List ZipEntry)
    (owner_id repoPfx base_label_ns nowIso : String) : Except String BuildOut :=
  if env.dockerfileExists = false then .error dockerfileMissingMsg
  else
    match safe_extract_zip zipEntries env.ctxDir with
    | .error e => .error e
    | .ok _ =>
      let files0 := extractedCtxFiles zipEntries
      match find_agent_entry (files0.map Prod.fst) with
      | .error e => .error e
      | .ok entryFile =>
        let files1 := injectIgnore env (injectBaseReqs env files0)
        let sha := env.digest (hashInput files1)
        let fullTag := repoPfx ++ tagSep ++ sha.take 8 ++ latestSuf
        .ok
          { tag := fullTag
            labels :=
              [(base_label_ns ++ ownerIdKeySuf, owner_id),
               (base_label_ns ++ contentShaKeySuf, sha),
               (base_label_ns ++ createdAtKeySuf, nowIso),
               (base_label_ns ++ kindKeySuf, kindAgent)]
            entryFile := entryFile }

/-! ### Runtime-argument allow-list — `_build_docker_run_kwargs`
(`agent_runner.py` lines 20-32)

The settings mapping loaded from the operator configuration is modelled
as a lookup function `String → Option α`; the source builds the keyword
arguments with `{k: settings[k] for k in allowed if k in settings}`.
-/

def capDropKey : String := "cap_drop"

def securityOptKey : String := "security_opt"

def readOnlyKey : String := "read_only"

def tmpfsKey : String := "tmpfs"

def pidsLimitKey : String := "pids_limit"

def ulimitsKey : String := "ulimits"

def memLimitKey : String := "mem_limit"

def nanoCpusKey : String := "nano_cpus"

def networkModeKey : String := "network_mode"

/-- The fixed allow-list of lines 21-31. -/
def allowedRunKeys : List String :=
  [capDropKey, securityOptKey, readOnlyKey, tmpfsKey, pidsLimitKey,
   ulimitsKey, memLimitKey, nanoCpusKey, networkModeKey]

/-- `_build_docker_run_kwargs` (line 32): the restriction of the
settings mapping to the allow-listed keys, in allow-list order. -/
def build_docker_run_kwargs {α : Type} (settings : String → Option α) :
    List (String × α) :=
  allowedRunKeys.filterMap (fun k => (settings k).map (fun v => (k, v)))

/-! ### Blocking run path — `run_agent` (`agent_runner.py` lines 38-109)

The embedding covers the behaviour from the started container on (lines
74-109): the policy values already read from the loaded settings
(`time_limit_seconds`, `log_tail`, `stop_timeout`, with source defaults
30, 10000 and 2 — the settings file itself is operator data, not
repository code), the outcome of `container.wait(timeout=time_limit)`
(`.ok` with the optional `StatusCode` of the engine reply when the wait
finished inside the limit, `.error` when it exceeded the limit and the
client raised), and the engine reply to
`container.logs(stdout=True, stderr=True, tail=log_tail)` (`.error`
when the logs call raised, in which case the source substitutes the
empty byte string).  Besides the returned `RunResult`, the model
records the ordered engine calls the source issues, so that the
stop-then-kill escalation and the requested log tail are visible.
-/

structure RunResult where
  exit_code : Option Int
  timeout : Bool
  logs : List Char
  container_id : String
deriving DecidableEq, Repr

inductive EngineOp where
  | wait (timeoutSec : Nat)
  | stop (timeoutSec : Nat)
  | kill
  | logsReq (tail : Nat)
  | remove (force : Bool)
deriving DecidableEq, Repr

def replacementChar : Char := Char.ofNat 0xFFFD

/-- `raw_logs.decode(errors="replace")` of line 97, at byte granularity:
ascii bytes decode to themselves, other bytes to the replacement
character (exact on ascii output; multi-byte sequences are collapsed
per byte, which none of the stated properties depend on). -/
def decodeReplace (bs : List Nat) : List Char :=
  bs.map (fun b => if b < 128 then Char.ofNat b else replacementChar)

/-- `run_agent`, lines 74-109.  The fixed sentinel 124 replaces the exit
code on timeout; the escalation is stop with the policy stop-timeout
then kill; the logs are the decoded engine reply with no further
processing; the container is force-removed unconditionally. -/
def run_agent (time_limit log_tail stop_timeout : Nat)
    (waitRes : Except Unit (Option Int)) (logsRes : Except Unit (List Nat))
    (cid : String) : RunResult × List EngineOp :=
  let waitStep : Option Int × Bool × List EngineOp :=
    match waitRes with
    | .ok status => (status, false, [EngineOp.wait time_limit])
    | .error _ =>
      (some 124, true,
       [EngineOp.wait time_limit, EngineOp.stop stop_timeout, EngineOp.kill])
  let raw : List Nat :=
    match logsRes with
    | .ok bs => bs
    | .error _ => []
  ({ exit_code := waitStep.1
     timeout := waitStep.2.1
     logs := decodeReplace raw
     container_id := cid },
   waitStep.2.2 ++ [EngineOp.logsReq log_tail, EngineOp.remove true])

/-! ### Detached match path — `start_agent_container`
(`agent_runner.py` lines 115-173)

The embedding covers the name default, the label set and the returned
mapping (lines 145-173); the engine-assigned container id is a
parameter.  The returned mapping is an association list so that its
exact key set is visible.
-/

def kindLabelKey : String := "org.gameai.kind"

def ownerLabelKey : String := "org.gameai.owner_id"

def agentLabelKey : String := "org.gameai.agent_id"

def matchLabelKey : String := "org.gameai.match_id"

def kindAgentContainer : String := "agent-container"

def matchNamePre : String := "match-"

def agentNameMid : String := "-agent-"

def conatinerIdKey : String := "conatiner_id"

def containerIdKey : String := "container_id"

def nameKey : String := "name"

def imageKey : String := "image"

structure StartOut where
  result : List (String × String)
  labels : List (String × String)
  containerName : String
deriving DecidableEq, Repr

/-- `start_agent_container`: default the name to
`match-<match_id>-agent-<agent_id>`, attach the four
`org.gameai` labels, and return the mapping the source literally
builds at lines 169-173 — whose first key is the misspelt string
`conatiner_id`. -/
def start_agent_container (image_ref match_id agent_id owner_id : String)
    (name : Option String) (engineCid : String) : StartOut :=
  let chosenName :=
    match name with
    | some n => n
    | none => matchNamePre ++ match_id ++ agentNameMid ++ agent_id
  { result :=
      [(conatinerIdKey, engineCid), (nameKey, chosenName), (imageKey, image_ref)]
    labels :=
      [(kindLabelKey, kindAgentContainer), (ownerLabelKey, owner_id),
       (agentLabelKey, agent_id), (matchLabelKey, match_id)]
    containerName := chosenName }

/-! ### Statistics snapshot — `get_container_stats`
(`agent_manager.py` lines 169-209)

The engine stats reply is modelled by the fields the source reads, with
the `dict.get` defaults applied where the source applies them: the two
cumulative cpu counters and the two system counters default to 0, the
online-cpu field is absent, a number, or a list (replaced by its length
at line 198), and the memory fields are optional.  The percentage is
computed over `ℚ` in place of the float of the source; the guard
structure, which the claim is about, is unchanged.
-/

structure StatsSnapshot where
  cpu_total : Int
  precpu_total : Int
  system_cpu : Int
  presystem_cpu : Int
  online_cpus : Option (Nat ⊕ List Nat)
  mem_usage : Option Int
  mem_limit : Option Int

structure ContainerStats where
  memory_usage : Option Int
  memory_limit : Option Int
  cpu_percent : ℚ

/-- The value of the `cpus` variable after the isinstance conversion of
lines 196-198. -/
def onlineCpusCount (s : StatsSnapshot) : Option Nat :=
  match s.online_cpus with
  | none => none
  | some (.inl n) => some n
  | some (.inr l) => some l.length

/-- Python truthiness of `cpus` in the guard of line 200: `None` and 0
are falsy. -/
def cpusTruthy (s : StatsSnapshot) : Bool :=
  match onlineCpusCount s with
  | none => false
  | some n => n ≠ 0

/-- `get_container_stats`, lines 180-209: the deltas of the cumulative
counters, and the percentage exactly when both deltas are strictly
positive and the cpu count is known and nonzero, 0 otherwise. -/
def get_container_stats (s : StatsSnapshot) : ContainerStats :=
  let cpu_delta : Int := s.cpu_total - s.precpu_total
  let system_delta : Int := s.system_cpu - s.presystem_cpu
  let cpu_percent : ℚ :=
    if 0 < system_delta ∧ 0 < cpu_delta ∧ cpusTruthy s then
      (cpu_delta : ℚ) / (system_delta : ℚ) *
        ((onlineCpusCount s).getD 0 : ℚ) * 100
    else 0
  { memory_usage := s.mem_usage
    memory_limit := s.mem_limit
    cpu_percent := cpu_percent }

/-! ### Concrete instances used by witnesses and counterexamples -/

def tmpComp : String := "tmp"

def fooComp : String := "foo"

def fooxComp : String := "foox"

def evilPyName : String := "evil.py"

def evilEntryName : String := "../foox/evil.py"

def etcPasswdName : String := "/etc/passwd"

def subAgentPath : String := "sub/other_agent.py"

def myAgentName : String := "my_agent.py"

def evilKey : String := "privileged"

def settingsDemoA : String → Option Nat :=
  fun k => if k = capDropKey then some 1 else if k = evilKey then some 7 else none

def settingsDemoB : String → Option Nat :=
  fun k => if k = capDropKey then some 1 else none

def statsDemo : StatsSnapshot :=
  { cpu_total := 200
    precpu_total := 100
    system_cpu := 150
    presystem_cpu := 100
    online_cpus := some (.inl 2)
    mem_usage := some 5
    mem_limit := some 10 }

def cidDemo : String := "c123"

def imgDemo : String := "img"

def m1Demo : String := "m1"

def a1Demo : String := "a1"

def o1Demo : String := "o1"

/-- 6 MiB, the oversized-output size the spec uses as its example. -/
def bigN : Nat := 6291456

/-- The 5 MiB byte ceiling named by the spec (nowhere in the source). -/
def byteCeiling : Nat := 5242880

def charA : Char := Char.ofNat 65

def goodZipEntry : ZipEntry := { filename := agentPyName, isDir := false, content := [97] }

def escZipEntry : ZipEntry := { filename := etcPasswdName, isDir := false, content := [98] }

def siblingZipEntry : ZipEntry := { filename := evilEntryName, isDir := false, content := [101] }

def demoBuildEnv : BuildEnv :=
  { digest := fun bs => String.mk (List.replicate (bs.length % 3 + 8) charA)
    dockerfileExists := true
    baseRequirements := some [114]
    defaultIgnore := some [105]
    ctxDir := [tmpComp, fooComp] }

/-- Decidable equality of `Except` results, used to evaluate the
embedded functions at concrete inputs. -/
instance {ε α : Type} [DecidableEq ε] [DecidableEq α] : DecidableEq (Except ε α) :=
  fun a b =>
    match a, b with
    | .error x, .error y =>
      if h : x = y then isTrue (by rw [h])
      else isFalse (fun hc => by cases hc; exact h rfl)
    | .ok x, .ok y =>
      if h : x = y then isTrue (by rw [h])
      else isFalse (fun hc => by cases hc; exact h rfl)
    | .error _, .ok _ => isFalse (fun hc => by cases hc)
    | .ok _, .error _ => isFalse (fun hc => by cases hc)

/-! ## Theorems -/

/-- C2 (counterexample): the destination `/tmp/foo` and the single
archive member `../foox/evil.py` resolve to `/tmp/foox/evil.py`, which
is not a descendant of the destination; yet `_safe_extract_zip`
returns successfully instead of raising `BuildError`, because the
rendered string `/tmp/foox/evil.py` starts with the rendered string
`/tmp/foo`.  (The file lands inside the destination only because the
stdlib `extractall` sanitizes member names on its own.) -/
theorem safe_extract_sibling_escape_counterexample :
    resolvedPath [tmpComp, fooComp] evilEntryName = [tmpComp, fooxComp, evilPyName] ∧
    List.isPrefixOf [tmpComp, fooComp]
      (resolvedPath [tmpComp, fooComp] evilEntryName) = false ∧
    safe_extract_zip [siblingZipEntry] [tmpComp, fooComp] =
      .ok [[tmpComp, fooComp, fooxComp, evilPyName]] := by
  decide

/-- C2 (amended): extraction raises `BuildError` with message
`Illegal Path in ZIP: <name>` exactly when some entry fails the
string-prefix test of the source — the rendered resolved path must
start with the rendered destination — which is weaker than descendant
containment (a sibling directory whose name extends the destination
name also passes, see the counterexample).  When every entry passes
that test, extraction succeeds and every written path is a descendant
of the destination (the stdlib sanitization keeps writes inside). -/
theorem safe_extract_string_prefix_characterization
    (entries : List ZipEntry) (dst : List String) :
    ((∀ e ∈ entries, pathCheck dst e.filename = true) →
      safe_extract_zip entries dst =
        .ok (entries.map (fun e => dst ++ sanitizeName e.filename)) ∧
      ∀ e ∈ entries, List.isPrefixOf dst (dst ++ sanitizeName e.filename) = true) ∧
    (∀ e ∈ entries, pathCheck dst e.filename = false →
      ∃ bad, safe_extract_zip entries dst = .error (illegalPathMsg ++ bad) ∧
        pathCheck dst bad = false) := by
  constructor
  · intro hall
    have hfind : entries.find? (fun e => ! pathCheck dst e.filename) = none := by
      rw [List.find?_eq_none]
      intro e he
      simp [hall e he]
    refine ⟨by simp [safe_extract_zip, hfind], ?_⟩
    intro e _
    rw [List.isPrefixOf_iff_prefix]
    exact List.prefix_append dst _
  · intro e he hbad
    have hsome : (entries.find? (fun x => ! pathCheck dst x.filename)).isSome := by
      rw [List.find?_isSome]
      exact ⟨e, he, by simp [hbad]⟩
    obtain ⟨b, hb⟩ := Option.isSome_iff_exists.mp hsome
    refine ⟨b.filename, by simp [safe_extract_zip, hb], ?_⟩
    have hpb := List.find?_some hb
    simpa using hpb

/-- C2 (witness): a benign archive extracts to the expected path under
the destination, and an archive with an absolute member name
`/etc/passwd` is rejected with the `Illegal Path in ZIP` message. -/
theorem safe_extract_string_prefix_characterization_witness :
    safe_extract_zip [goodZipEntry] [tmpComp, fooComp] =
      .ok [[tmpComp, fooComp, agentPyName]] ∧
    ∃ bad, safe_extract_zip [escZipEntry] [tmpComp, fooComp] =
      .error (illegalPathMsg ++ bad) ∧ pathCheck [tmpComp, fooComp] bad = false := by
  constructor
  · have h :=
      (safe_extract_string_prefix_characterization [goodZipEntry] [tmpComp, fooComp]).1
        (by decide)
    rw [h.1]
    decide
  · exact
      (safe_extract_string_prefix_characterization [escZipEntry] [tmpComp, fooComp]).2
        escZipEntry (by decide) (by decide)

/-- C8: every member is validated before anything is extracted — when
any member of the archive fails the path check, `_safe_extract_zip`
raises `BuildError` and produces no write at all (no `.ok` write list
exists), regardless of where the failing member sits in the archive. -/
theorem safe_extract_atomic_on_failure
    (entries : List ZipEntry) (dst : List String) (e : ZipEntry)
    (he : e ∈ entries) (hbad : pathCheck dst e.filename = false) :
    (∃ bad, safe_extract_zip entries dst = .error (illegalPathMsg ++ bad)) ∧
    ∀ ws, safe_extract_zip entries dst ≠ .ok ws := by
  have hsome : (entries.find? (fun x => ! pathCheck dst x.filename)).isSome := by
    rw [List.find?_isSome]
    exact ⟨e, he, by simp [hbad]⟩
  obtain ⟨b, hb⟩ := Option.isSome_iff_exists.mp hsome
  have hres : safe_extract_zip entries dst = .error (illegalPathMsg ++ b.filename) := by
    simp [safe_extract_zip, hb]
  exact ⟨⟨b.filename, hres⟩, fun ws h => by rw [hres] at h; cases h⟩

/-- C8 (witness): an archive whose second member has the absolute name
`/etc/passwd` is rejected as a whole; the valid first member is not
written either. -/
theorem safe_extract_atomic_on_failure_witness :
    (∃ bad, safe_extract_zip [goodZipEntry, escZipEntry] [tmpComp, fooComp] =
      .error (illegalPathMsg ++ bad)) ∧
    ∀ ws, safe_extract_zip [goodZipEntry, escZipEntry] [tmpComp, fooComp] ≠ .ok ws :=
  safe_extract_atomic_on_failure [goodZipEntry, escZipEntry] [tmpComp, fooComp]
    escZipEntry (by decide) (by decide)

/-- C7: entry-file resolution over the top-level regular files of the
build context.  With the candidate set of the source — top-level
regular files named `agent.py` or ending in `_agent.py` — exactly one
candidate resolves to its filename, zero candidates raise the
`No agent entry file found` error, and two or more candidates raise the
`Multiple agent entry files found` error listing every candidate name;
a regular file inside a subdirectory (a path containing a slash) is
never a candidate, so an agent file only there still yields the
zero-candidate error. -/
theorem find_agent_entry_cases (files : List String) :
    (files.filter isAgentCandidate = [] →
      find_agent_entry files = .error noEntryMsg) ∧
    (∀ x, files.filter isAgentCandidate = [x] →
      find_agent_entry files = .ok x ∧ x ∈ files ∧ isAgentCandidate x = true) ∧
    (∀ x y t, files.filter isAgentCandidate = x :: y :: t →
      find_agent_entry files =
        .error (multiEntryMsgPre ++ String.intercalate commaSep (x :: y :: t) ++
          multiEntryMsgSuf)) ∧
    (∀ p ∈ files, p.data.contains slashChar = true → isAgentCandidate p = false) := by
  refine ⟨?_, ?_, ?_, ?_⟩
  · intro h
    simp [find_agent_entry, h]
  · intro x h
    have hx : x ∈ files.filter isAgentCandidate := by rw [h]; exact List.mem_singleton.mpr rfl
    exact ⟨by simp [find_agent_entry, h], List.mem_of_mem_filter hx, List.of_mem_filter hx⟩
  · intro x y t h
    simp [find_agent_entry, h]
  · intro p _ hp
    unfold isAgentCandidate
    rw [hp]
    rfl

/-- C7 (witness): one top-level `agent.py` beside a nested agent file
resolves to `agent.py`; an agent file only inside a subdirectory yields
the zero-candidate error; two top-level candidates yield the
multiple-candidate error naming both. -/
theorem find_agent_entry_cases_witness :
    find_agent_entry [agentPyName, subAgentPath] = .ok agentPyName ∧
    find_agent_entry [subAgentPath] = .error noEntryMsg ∧
    find_agent_entry [agentPyName, myAgentName] =
      .error (multiEntryMsgPre ++
        String.intercalate commaSep [agentPyName, myAgentName] ++ multiEntryMsgSuf) :=
  ⟨((find_agent_entry_cases [agentPyName, subAgentPath]).2.1 agentPyName (by decide)).1,
   (find_agent_entry_cases [subAgentPath]).1 (by decide),
   (find_agent_entry_cases [agentPyName, myAgentName]).2.2.1 agentPyName myAgentName []
     (by decide)⟩

/-- C6: the runtime arguments passed to the container engine are a
function of the allow-listed settings alone — two settings mappings
that agree on every allow-listed key produce identical run keyword
arguments, whatever they hold at any other key. -/
theorem run_kwargs_allowlist_agreement (α : Type) (s1 s2 : String → Option α)
    (h : ∀ k ∈ allowedRunKeys, s1 k = s2 k) :
    build_docker_run_kwargs s1 = build_docker_run_kwargs s2 := by
  unfold build_docker_run_kwargs
  exact List.filterMap_congr (fun k hk => by rw [h k hk])

/-- C6 (witness): two demo settings mappings that agree on the
allow-list but disagree on the key `privileged` yield the same run
keyword arguments. -/
theorem run_kwargs_allowlist_agreement_witness :
    (∀ k ∈ allowedRunKeys, settingsDemoA k = settingsDemoB k) ∧
    settingsDemoA evilKey ≠ settingsDemoB evilKey ∧
    build_docker_run_kwargs settingsDemoA = build_docker_run_kwargs settingsDemoB :=
  ⟨by decide, by decide,
   run_kwargs_allowlist_agreement Nat settingsDemoA settingsDemoB (by decide)⟩

/-- C10: the constructed run keyword arguments are exactly the
restriction of the settings mapping to the nine allow-listed keys — a
pair is in the output precisely when its key is allow-listed and the
settings hold that value at it; an absent allow-listed key is simply
omitted and no default is substituted, so the empty settings mapping
produces no runtime restriction at all. -/
theorem run_kwargs_exact_restriction :
    (∀ (α : Type) (s : String → Option α) (k : String) (v : α),
      ((k, v) ∈ build_docker_run_kwargs s ↔ k ∈ allowedRunKeys ∧ s k = some v)) ∧
    (∀ α : Type, build_docker_run_kwargs (fun _ : String => (none : Option α)) = []) := by
  constructor
  · intro α s k v
    unfold build_docker_run_kwargs
    rw [List.mem_filterMap]
    constructor
    · rintro ⟨a, ha, hav⟩
      rw [Option.map_eq_some'] at hav
      obtain ⟨b, hb, hkv⟩ := hav
      cases hkv
      exact ⟨ha, hb⟩
    · rintro ⟨hk, hv⟩
      exact ⟨k, hk, by rw [hv]; rfl⟩
  · intro α
    rfl

/-- C10 (witness): the settings mapping holding only `cap_drop` yields
exactly that pair, and the empty mapping yields no arguments. -/
theorem run_kwargs_exact_restriction_witness :
    (capDropKey, 1) ∈ build_docker_run_kwargs settingsDemoB ∧
    build_docker_run_kwargs (fun _ : String => (none : Option Nat)) = [] :=
  ⟨(run_kwargs_exact_restriction.1 Nat settingsDemoB capDropKey 1).mpr
      ⟨by decide, by decide⟩,
   run_kwargs_exact_restriction.2 Nat⟩

/-- C4: the image tag is derived only from the repo prefix and the
content hash of the build context — for one and the same build
environment (digest primitive, recipe presence, injected host files,
build directory) and archive, the tag of the build result is identical
across any two owner ids and any two creation timestamps; in
particular two builds of a byte-identical archive for different owners
carry the same tag, and rebuilding for the same owner does too. -/
theorem build_tag_content_derived (env : BuildEnv) (zipEntries : List ZipEntry)
    (repoPfx ns o1 o2 n1 n2 : String) :
    Except.map BuildOut.tag (build_from_zip env zipEntries o1 repoPfx ns n1) =
    Except.map BuildOut.tag (build_from_zip env zipEntries o2 repoPfx ns n2) := by
  by_cases hd : env.dockerfileExists = false
  · simp [build_from_zip, hd]
  · cases hse : safe_extract_zip zipEntries env.ctxDir with
    | error e => simp [build_from_zip, hd, hse]
    | ok w =>
      cases hfe : find_agent_entry ((extractedCtxFiles zipEntries).map Prod.fst) with
      | error e => simp [build_from_zip, hd, hse, hfe]
      | ok entry => simp [build_from_zip, hd, hse, hfe, Except.map]

/-- C5: the wait on the container is timeout-bounded with two-step
escalation — the result carries `timeout=true` exactly when the
engine wait exceeded the policy time limit, in which case the exit
code is the fixed sentinel 124 and the engine receives a graceful stop
with the policy stop-timeout followed by a force-kill; when the wait
finishes inside the limit, `timeout=false` and the exit code is the
status the engine reported. -/
theorem run_agent_timeout_semantics (tl lt st : Nat)
    (w : Except Unit (Option Int)) (l : Except Unit (List Nat)) (cid : String) :
    ((run_agent tl lt st w l cid).1.timeout = true ↔ w = .error ()) ∧
    (w = .error () →
      (run_agent tl lt st w l cid).1.exit_code = some 124 ∧
      (run_agent tl lt st w l cid).2 =
        [EngineOp.wait tl, EngineOp.stop st, EngineOp.kill,
         EngineOp.logsReq lt, EngineOp.remove true]) ∧
    (∀ c, w = .ok c →
      (run_agent tl lt st w l cid).1.timeout = false ∧
      (run_agent tl lt st w l cid).1.exit_code = c ∧
      (run_agent tl lt st w l cid).2 =
        [EngineOp.wait tl, EngineOp.logsReq lt, EngineOp.remove true]) := by
  cases w with
  | error u => cases u; simp [run_agent]
  | ok c => simp [run_agent]

/-- C5 (witness): with the source-default policy values (time limit 30,
log tail 10000, stop timeout 2), an exceeded wait yields
`timeout=true`, exit code 124, and the stop-then-kill escalation in
the engine call sequence; a wait that finished with status 7 yields
`timeout=false` and exit code 7. -/
theorem run_agent_timeout_semantics_witness :
    (run_agent 30 10000 2 (.error ()) (.ok []) cidDemo).1.timeout = true ∧
    (run_agent 30 10000 2 (.error ()) (.ok []) cidDemo).1.exit_code = some 124 ∧
    (run_agent 30 10000 2 (.error ()) (.ok []) cidDemo).2 =
      [EngineOp.wait 30, EngineOp.stop 2, EngineOp.kill,
       EngineOp.logsReq 10000, EngineOp.remove true] ∧
    (run_agent 30 10000 2 (.ok (some 7)) (.ok []) cidDemo).1.timeout = false ∧
    (run_agent 30 10000 2 (.ok (some 7)) (.ok []) cidDemo).1.exit_code = some 7 :=
  ⟨(run_agent_timeout_semantics 30 10000 2 (.error ()) (.ok []) cidDemo).1.mpr rfl,
   ((run_agent_timeout_semantics 30 10000 2 (.error ()) (.ok []) cidDemo).2.1 rfl).1,
   ((run_agent_timeout_semantics 30 10000 2 (.error ()) (.ok []) cidDemo).2.1 rfl).2,
   ((run_agent_timeout_semantics 30 10000 2 (.ok (some 7)) (.ok []) cidDemo).2.2
      (some 7) rfl).1,
   ((run_agent_timeout_semantics 30 10000 2 (.ok (some 7)) (.ok []) cidDemo).2.2
      (some 7) rfl).2.1⟩

/-- C9: `get_container_stats` is total and never divides by zero — the
cpu percentage is `(cpu_delta / system_delta) * online_cpus * 100`
exactly when both counter deltas are strictly positive and the online
cpu count is known and nonzero (the denominator then being nonzero),
and it is 0 in every degenerate case: nonpositive system delta,
nonpositive cpu delta, or a missing or zero cpu count. -/
theorem stats_guard_semantics (s : StatsSnapshot) :
    ((s.system_cpu - s.presystem_cpu ≤ 0 ∨ s.cpu_total - s.precpu_total ≤ 0 ∨
        cpusTruthy s = false) →
      (get_container_stats s).cpu_percent = 0) ∧
    (∀ n : Nat, 0 < s.system_cpu - s.presystem_cpu →
      0 < s.cpu_total - s.precpu_total →
      onlineCpusCount s = some n → n ≠ 0 →
      (((s.system_cpu - s.presystem_cpu : ℤ) : ℚ) ≠ 0 ∧
       (get_container_stats s).cpu_percent =
         ((s.cpu_total - s.precpu_total : ℤ) : ℚ) /
           ((s.system_cpu - s.presystem_cpu : ℤ) : ℚ) * (n : ℚ) * 100)) := by
  constructor
  · intro hdeg
    simp only [get_container_stats]
    rw [if_neg]
    rintro ⟨h1, h2, h3⟩
    rcases hdeg with h | h | h
    · exact absurd h1 (not_lt.mpr h)
    · exact absurd h2 (not_lt.mpr h)
    · rw [h] at h3; cases h3
  · intro n hs hc hcpus hn
    have htruthy : cpusTruthy s = true := by
      unfold cpusTruthy
      rw [hcpus]
      simpa using hn
    refine ⟨?_, ?_⟩
    · have h0 : (0 : ℚ) < ((s.system_cpu - s.presystem_cpu : ℤ) : ℚ) := by
        exact_mod_cast hs
      exact ne_of_gt h0
    · simp only [get_container_stats]
      rw [if_pos ⟨hs, hc, htruthy⟩, hcpus]
      rfl

/-- C9 (witness): a snapshot with cpu delta 100, system delta 50 and
two online cpus takes the positive branch of the guard, with a nonzero
denominator. -/
theorem stats_guard_semantics_witness :
    (((statsDemo.system_cpu - statsDemo.presystem_cpu : ℤ) : ℚ) ≠ 0 ∧
      (get_container_stats statsDemo).cpu_percent =
        ((statsDemo.cpu_total - statsDemo.precpu_total : ℤ) : ℚ) /
          ((statsDemo.system_cpu - statsDemo.presystem_cpu : ℤ) : ℚ) * (2 : ℚ) * 100) :=
  (stats_guard_semantics statsDemo).2 2 (by decide) (by decide) (by decide) (by decide)

/-- C1 (counterexample): a run whose container printed 6 MiB of the
ascii byte 65 returns those 6 MiB decoded in full — the logs are
exactly 6291456 copies of the letter A, a full megabyte beyond the
5 MiB ceiling the claim states, with no truncation and no marker
appended: `run_agent` (lines 92-97 of `agent_runner.py`) only decodes
the tail-bounded engine reply and never applies a byte ceiling. -/
theorem run_agent_logs_ceiling_counterexample :
    (run_agent 30 10000 2 (.ok (some 0)) (.ok (List.replicate bigN 65)) cidDemo).1.logs =
      List.replicate bigN charA ∧
    (List.replicate bigN charA).length = bigN ∧
    byteCeiling + 1048576 ≤ bigN := by
  refine ⟨?_, List.length_replicate bigN charA, by decide⟩
  show decodeReplace (List.replicate bigN 65) = List.replicate bigN charA
  unfold decodeReplace
  rw [List.map_replicate]
  norm_num [charA]

/-- C1 (amended): the logs field of a `run_agent` result is the engine
reply to a logs request tail-bounded by the policy log-tail setting,
decoded with replacement in full — no 5 MiB byte ceiling is applied
and no truncation marker exists, so for ascii output the returned
text has exactly one character per raw byte, however large the
output. -/
theorem run_agent_logs_full_decode (tl lt st : Nat)
    (w : Except Unit (Option Int)) (raw : List Nat) (cid : String) :
    (run_agent tl lt st w (.ok raw) cid).1.logs = decodeReplace raw ∧
    ((∀ b ∈ raw, b < 128) →
      ((run_agent tl lt st w (.ok raw) cid).1.logs).length = raw.length) ∧
    EngineOp.logsReq lt ∈ (run_agent tl lt st w (.ok raw) cid).2 := by
  have hlogs : (run_agent tl lt st w (.ok raw) cid).1.logs = decodeReplace raw := by
    cases w <;> rfl
  refine ⟨hlogs, ?_, ?_⟩
  · intro _
    rw [hlogs]
    exact List.length_map raw _
  · cases w <;> simp [run_agent]

/-- C1 (witness): a two-byte ascii output decodes to exactly two
characters, and the engine was asked for the policy log tail. -/
theorem run_agent_logs_full_decode_witness :
    ((run_agent 30 10000 2 (.ok (some 0)) (.ok [104, 105]) cidDemo).1.logs).length = 2 ∧
    EngineOp.logsReq 10000 ∈ (run_agent 30 10000 2 (.ok (some 0)) (.ok [104, 105]) cidDemo).2 :=
  ⟨(run_agent_logs_full_decode 30 10000 2 (.ok (some 0)) [104, 105] cidDemo).2.1
      (by decide),
   (run_agent_logs_full_decode 30 10000 2 (.ok (some 0)) [104, 105] cidDemo).2.2⟩

/-- C3 (code bug): evaluating `start_agent_container` at a concrete
successful call: the returned mapping holds exactly the keys
`conatiner_id` (misspelt), `name` and `image` — the documented key
`container_id` is absent, although the docstring at lines 130-133 and
the repository test `tests/test_agent_manager.py` line 37 both use
`container_id`.  The label set and the deterministic default name of
the claim are produced as stated. -/
theorem start_agent_container_misspelt_key :
    ((start_agent_container imgDemo m1Demo a1Demo o1Demo none cidDemo).result.map
        Prod.fst = [conatinerIdKey, nameKey, imageKey]) ∧
    conatinerIdKey ≠ containerIdKey ∧
    containerIdKey ∉
      (start_agent_container imgDemo m1Demo a1Demo o1Demo none cidDemo).result.map
        Prod.fst ∧
    (start_agent_container imgDemo m1Demo a1Demo o1Demo none cidDemo).containerName =
      matchNamePre ++ m1Demo ++ agentNameMid ++ a1Demo ∧
    (start_agent_container imgDemo m1Demo a1Demo o1Demo none cidDemo).labels =
      [(kindLabelKey, kindAgentContainer), (ownerLabelKey, o1Demo),
       (agentLabelKey, a1Demo), (matchLabelKey, m1Demo)] := by
  decide
